import Mathlib

/-!
Verification of the qt_atoms QuickTime/MP4 atom parser.

The Rust sources (src/atoms.rs, src/parse_state.rs, src/lib.rs, src/main.rs)
are shallowly embedded here.  A file is modelled as an in-memory byte source
(`ByteSrc`): a list of byte values together with a cursor position, which is
exactly the behaviour of `std::fs::File` restricted to `read`/`seek` on the
file's contents.  `read` into an n-byte buffer returns the next
`min (available, n)` bytes (a short read at end-of-stream succeeds with fewer
bytes, leaving the rest of the buffer untouched, as Rust's `Read::read` does);
`seek` moves the cursor anywhere, including past the end.  Reads and seeks on
an in-memory source never fail, so the `std::io::Error` paths of the Rust code
are unreachable in this model.

Rust `&str` values are represented by their UTF-8 bytes (which is what a Rust
`&str` is); `std::str::from_utf8` is modelled by `atomTypeStr`, which returns
`none` exactly when the Rust `unwrap()` would panic.  A `none` result of the
parsing functions marks a panic or (for the fuel-indexed loops) exhaustion of
the fuel bound; the Rust child-enumeration loop genuinely diverges on some
inputs, so the loops take an explicit fuel parameter.
-/

/-- Big-endian interpretation of a byte list; models `u32::from_be_bytes` /
`u64::from_be_bytes` applied to buffers of the corresponding length. -/
def fromBE (bs : List Nat) : Nat := bs.foldl (fun acc b => acc * 256 + b) 0

/-- Wrapping subtraction on 64-bit values (release-mode Rust `u64` subtraction). -/
def wsub64 (x y : Nat) : Nat := (x % 2 ^ 64 + 2 ^ 64 - y % 2 ^ 64) % 2 ^ 64

/-- Wrapping addition on 64-bit values (release-mode Rust `u64` addition;
debug-mode Rust panics on the overflow instead). -/
def wadd64 (x y : Nat) : Nat := (x % 2 ^ 64 + y % 2 ^ 64) % 2 ^ 64

/-- `&l[off .. off+n]`, assuming the bounds were checked. -/
def sliceL (l : List Nat) (off n : Nat) : List Nat := (l.drop off).take n

/-- Is `b` a UTF-8 continuation byte (`0x80 ..= 0xBF`)? -/
def isCont (b : Nat) : Bool := 0x80 ≤ b && b ≤ 0xBF

/-- UTF-8 validity of a byte list, as checked by `std::str::from_utf8`. -/
def utf8Valid : List Nat → Bool
  | [] => true
  | b :: r =>
    if b ≤ 0x7F then utf8Valid r
    else if 0xC2 ≤ b && b ≤ 0xDF then
      match r with
      | c1 :: r1 => isCont c1 && utf8Valid r1
      | [] => false
    else if b = 0xE0 then
      match r with
      | c1 :: c2 :: r2 => (0xA0 ≤ c1 && c1 ≤ 0xBF) && isCont c2 && utf8Valid r2
      | _ => false
    else if (0xE1 ≤ b && b ≤ 0xEC) || b = 0xEE || b = 0xEF then
      match r with
      | c1 :: c2 :: r2 => isCont c1 && isCont c2 && utf8Valid r2
      | _ => false
    else if b = 0xED then
      match r with
      | c1 :: c2 :: r2 => (0x80 ≤ c1 && c1 ≤ 0x9F) && isCont c2 && utf8Valid r2
      | _ => false
    else if b = 0xF0 then
      match r with
      | c1 :: c2 :: c3 :: r3 => (0x90 ≤ c1 && c1 ≤ 0xBF) && isCont c2 && isCont c3 && utf8Valid r3
      | _ => false
    else if 0xF1 ≤ b && b ≤ 0xF3 then
      match r with
      | c1 :: c2 :: c3 :: r3 => isCont c1 && isCont c2 && isCont c3 && utf8Valid r3
      | _ => false
    else if b = 0xF4 then
      match r with
      | c1 :: c2 :: c3 :: r3 => (0x80 ≤ c1 && c1 ≤ 0x8F) && isCont c2 && isCont c3 && utf8Valid r3
      | _ => false
    else false

/-- Models `std::str::from_utf8(bytes)` followed by `.unwrap()`: the resulting
`&str` is represented by its bytes; `none` is the panic on invalid UTF-8. -/
def atomTypeStr (bs : List Nat) : Option (List Nat) :=
  if utf8Valid bs then some bs else none

/-- UTF-8 bytes of the type-code string literals used by the Rust source. -/
def rootType : List Nat := [114, 111, 111, 116]

/-- "moov" -/
def moovType : List Nat := [109, 111, 111, 118]

/-- "ftyp" -/
def ftypType : List Nat := [102, 116, 121, 112]

/-- "free" -/
def freeType : List Nat := [102, 114, 101, 101]

/-- "wide" -/
def wideType : List Nat := [119, 105, 100, 101]

/-- "mdat" -/
def mdatType : List Nat := [109, 100, 97, 116]

/-- An in-memory byte source with a read/seek cursor: the model of the opened
file handed to the parser. -/
structure ByteSrc where
  data : List Nat
  pos : Nat
deriving Repr, DecidableEq

/-- `file.read(&mut buf)` for a buffer of length `n`: returns the bytes read
(possibly fewer than `n` near end-of-stream) and advances the cursor by the
number of bytes actually read. -/
def ByteSrc.readBytes (s : ByteSrc) (n : Nat) : List Nat × ByteSrc :=
  let bs := (s.data.drop s.pos).take n
  (bs, ⟨s.data, s.pos + bs.length⟩)

/-- `file.seek(SeekFrom::Start(p))`. -/
def ByteSrc.seekTo (s : ByteSrc) (p : Nat) : ByteSrc := ⟨s.data, p⟩

/-- `ParseError` from src/parse_state.rs.  The Rust `String` payloads obtained
through `atom_type()` are represented by their UTF-8 bytes. -/
inductive ParseError where
  | IoError : ParseError
  | NotValidMediaFileSize : String → ParseError
  | AtomParseFailed : List Nat → ParseError
  | NotAContainer : ParseError
  | FailedToReadOutAtom : List Nat → Nat → Nat → ParseError
deriving Repr, DecidableEq

/-- `AtomHeader` from src/atoms.rs: `atom_size : u64`, `atom_type : [u8;4]`,
`atom_location : u64`, `header_size : u32`. -/
structure AtomHeader where
  atom_size : Nat
  atom_type : List Nat
  atom_location : Nat
  header_size : Nat
deriving Repr, DecidableEq

/-- `AtomHeader::new` (src/atoms.rs lines 54-73).  Reads 8 bytes into a
zero-initialised buffer without checking for a short read; if the provisional
32-bit size is exactly 1, reads 8 more bytes into the same buffer (again
unchecked; a short second read leaves trailing bytes of the first read in
place) and takes the 64-bit size from it.  The location is the stream position
after the reads minus the number of bytes read.  On the in-memory source the
`std::io` failure paths (and the `unwrap` on the second read) cannot trigger,
so the result is always a header. -/
def AtomHeader.new (s : ByteSrc) : AtomHeader × ByteSrc :=
  let r1 := s.readBytes 8
  let buf := r1.1 ++ List.replicate (8 - r1.1.length) 0
  let provisional := fromBE (buf.take 4)
  let ty := (buf.drop 4).take 4
  if provisional = 1 then
    let r2 := r1.2.readBytes 8
    let buf2 := r2.1 ++ buf.drop r2.1.length
    let readout := r1.1.length + r2.1.length
    (⟨fromBE buf2, ty, r2.2.pos - readout, readout⟩, r2.2)
  else
    (⟨provisional, ty, r1.2.pos - r1.1.length, r1.1.length⟩, r1.2)

/-- `AtomHeader::read_atom` (src/atoms.rs lines 75-85): seek to
`atom_location`, read `atom_size` bytes; a short read is the
`FailedToReadOutAtom` error carrying `atom_type()` (whose `unwrap` panics —
`none` — on a non-UTF-8 type code), the declared size, and the bytes read. -/
def AtomHeader.read_atom (h : AtomHeader) (s : ByteSrc) :
    Option (Except ParseError (List Nat) × ByteSrc) :=
  let r := (s.seekTo h.atom_location).readBytes h.atom_size
  if r.1.length = h.atom_size then
    some (.ok r.1, r.2)
  else
    match atomTypeStr h.atom_type with
    | none => none
    | some t => some (.error (.FailedToReadOutAtom t h.atom_size r.1.length), r.2)

/-- `FtypAtom` (src/atoms.rs lines 440-446). -/
structure FtypAtom where
  atom_header : AtomHeader
  major_brand : Nat
  minor_version : Nat
  compatible_brands : List Nat
deriving Repr, DecidableEq

/-- `WideAtom` (src/atoms.rs). -/
structure WideAtom where
  atom_header : AtomHeader
deriving Repr, DecidableEq

/-- `FreeAtom` (src/atoms.rs). -/
structure FreeAtom where
  atom_header : AtomHeader
deriving Repr, DecidableEq

/-- `MdatAtom` (src/atoms.rs). -/
structure MdatAtom where
  atom_header : AtomHeader
deriving Repr, DecidableEq

/-- The compatible-brands loop of `FtypAtom::new`: iteration `i` reads the
4-byte big-endian integer at `base + i*4` (32-bit offset arithmetic); an
out-of-range slice is a panic (`none`). -/
def readBrands (buf : List Nat) (base : Nat) (i : Nat) : Nat → Option (List Nat)
  | 0 => some []
  | k + 1 =>
    let off := (base + i * 4) % 2 ^ 32
    if off + 4 ≤ buf.length then
      (readBrands buf base (i + 1) k).map (fun rest => fromBE (sliceL buf off 4) :: rest)
    else none

/-- `FtypAtom::new` (src/atoms.rs lines 448-476): read the whole atom's bytes;
extract major brand and minor version at `header_size`, then
`(size - header_size - 8) / 4` (wrapping u64 subtraction, count truncated to
u32) compatible brands.  Out-of-bounds slicing panics (`none`). -/
def FtypAtom.new (h : AtomHeader) (s : ByteSrc) :
    Option (Except ParseError FtypAtom × ByteSrc) :=
  match h.read_atom s with
  | none => none
  | some (.error e, s') => some (.error e, s')
  | some (.ok buf, s') =>
    if h.atom_size ≤ buf.length then
      let so := h.header_size
      if so + 8 ≤ buf.length then
        let major := fromBE (sliceL buf so 4)
        let minor := fromBE (sliceL buf (so + 4) 4)
        let bytesLeft := wsub64 (wsub64 h.atom_size h.header_size) 8
        let numU32 := bytesLeft / 4
        let base := (h.header_size + 8) % 2 ^ 32
        match readBrands buf base 0 (numU32 % 2 ^ 32) with
        | none => none
        | some brands => some (.ok ⟨h, major, minor, brands⟩, s')
      else none
    else
      match atomTypeStr h.atom_type with
      | none => none
      | some t => some (.error (.AtomParseFailed t), s')

/-- `Atoms` (src/atoms.rs lines 345-352): the leaf variants. -/
inductive Atoms where
  | Ftyp : FtypAtom → Atoms
  | Free : FreeAtom → Atoms
  | Wide : WideAtom → Atoms
  | Mdat : MdatAtom → Atoms
  | UnknownAtom : AtomHeader → Atoms
deriving Repr, DecidableEq

/-- `Atoms::new` (src/atoms.rs lines 354-365): dispatch on `atom_type()`
(whose `unwrap` panics on a non-UTF-8 code) over the closed set of known leaf
kinds; anything else is `UnknownAtom`.  `FreeAtom::new`, `WideAtom::new` and
`MdatAtom::new` just wrap the header and cannot fail. -/
def Atoms.new (h : AtomHeader) (s : ByteSrc) :
    Option (Except ParseError Atoms × ByteSrc) :=
  match atomTypeStr h.atom_type with
  | none => none
  | some t =>
    if t = ftypType then
      match FtypAtom.new h s with
      | none => none
      | some (.ok a, s') => some (.ok (.Ftyp a), s')
      | some (.error e, s') => some (.error e, s')
    else if t = freeType then some (.ok (.Free ⟨h⟩), s)
    else if t = wideType then some (.ok (.Wide ⟨h⟩), s)
    else if t = mdatType then some (.ok (.Mdat ⟨h⟩), s)
    else some (.ok (.UnknownAtom h), s)

mutual
/-- `AtomNodes` (src/atoms.rs lines 115-119). -/
inductive AtomNodes where
  | Container : ContainerAtoms → AtomNodes
  | Atom : Atoms → AtomNodes

/-- `ContainerAtoms` (src/atoms.rs lines 206-209). -/
inductive ContainerAtoms where
  | Moov : MoovAtom → ContainerAtoms

/-- `MoovAtom` (src/atoms.rs lines 283-287): a header plus children. -/
inductive MoovAtom where
  | mk : AtomHeader → List AtomNodes → MoovAtom
end

/-- `MoovAtom.atom_header` field accessor. -/
def MoovAtom.atom_header : MoovAtom → AtomHeader
  | .mk h _ => h

/-- `MoovAtom.children` field accessor. -/
def MoovAtom.children : MoovAtom → List AtomNodes
  | .mk _ c => c

/-- `AtomNodes::is_container` (src/atoms.rs lines 130-137). -/
def AtomNodes.is_container : AtomNodes → Bool
  | .Container _ => true
  | .Atom _ => false

/-- `AtomHeader::parse_children` (src/atoms.rs lines 183-194): loop reading a
child header, seeking to `child.location + child.size`, and stopping once
`child.location + child.size >= self.atom_size()` (note: compared against the
container's *size* alone).  The sum is `u64` addition, so it wraps at `2^64`
(release-mode semantics, as for `wsub64`; debug-mode Rust would panic on the
overflow): a child declaring an extended size near `2^64` gets a small wrapped
end offset, fails the bound, and is kept with the loop continuing.  The loop
can diverge (a zero-sized child header below the bound repeats forever), hence
the fuel; `none` is divergence/fuel exhaustion.  The Rust `?` on
`AtomHeader::new` cannot fire on the in-memory source. -/
def parseChildrenHeaders (parent : AtomHeader) : Nat → ByteSrc → Option (List AtomHeader × ByteSrc)
  | 0, _ => none
  | fuel + 1, s =>
    let ch := (AtomHeader.new s).1
    let s2 := (AtomHeader.new s).2.seekTo (wadd64 ch.atom_location ch.atom_size)
    if wadd64 ch.atom_location ch.atom_size ≥ parent.atom_size then
      some ([ch], s2)
    else
      (parseChildrenHeaders parent fuel s2).map (fun r => (ch :: r.1, r.2))

mutual
/-- `AtomNodes::new` (src/atoms.rs lines 121-129): try the container decoder;
on its error fall back to the leaf decoder (with the source wherever the
failed container attempt left it). -/
def AtomNodes.new : Nat → AtomHeader → ByteSrc → Option (Except ParseError AtomNodes × ByteSrc)
  | 0, _, _ => none
  | fuel + 1, h, s =>
    match ContainerAtoms.new fuel h s with
    | none => none
    | some (.ok k, s') => some (.ok (.Container k), s')
    | some (.error _, s') =>
      match Atoms.new h s' with
      | none => none
      | some (.ok a, s'') => some (.ok (.Atom a), s'')
      | some (.error e, s'') => some (.error e, s'')

/-- `ContainerAtoms::new` (src/atoms.rs lines 211-219): `"moov"` is the only
container type; everything else is the internal `NotAContainer` error. -/
def ContainerAtoms.new : Nat → AtomHeader → ByteSrc → Option (Except ParseError ContainerAtoms × ByteSrc)
  | 0, _, _ => none
  | fuel + 1, h, s =>
    match atomTypeStr h.atom_type with
    | none => none
    | some t =>
      if t = moovType then
        match MoovAtom.new fuel h s with
        | none => none
        | some (.ok m, s') => some (.ok (.Moov m), s')
        | some (.error e, s') => some (.error e, s')
      else some (.error .NotAContainer, s)

/-- `MoovAtom::new` (src/atoms.rs lines 289-297): seek to the payload start
`location + header_size` and enumerate children. -/
def MoovAtom.new : Nat → AtomHeader → ByteSrc → Option (Except ParseError MoovAtom × ByteSrc)
  | 0, _, _ => none
  | fuel + 1, h, s =>
    match AtomNodes.parseChildren fuel h (s.seekTo (h.atom_location + h.header_size)) with
    | none => none
    | some (.ok cs, s') => some (.ok (.mk h cs), s')
    | some (.error e, s') => some (.error e, s')

/-- `AtomNodes::parse_children` (src/atoms.rs lines 196-205): collect the
child headers, then classify each in order, dropping the ones whose
classification fails (`filter(is_ok)`). -/
def AtomNodes.parseChildren : Nat → AtomHeader → ByteSrc → Option (Except ParseError (List AtomNodes) × ByteSrc)
  | 0, _, _ => none
  | fuel + 1, h, s =>
    match parseChildrenHeaders h fuel s with
    | none => none
    | some (hs, s') =>
      match classifyList fuel hs s' with
      | none => none
      | some (ns, s'') => some (.ok ns, s'')

/-- The `map (AtomNodes::new) … filter(is_ok) … collect()` pipeline of
`AtomNodes::parse_children`: classify the headers left to right against the
shared source, keeping the successes in order. -/
def classifyList : Nat → List AtomHeader → ByteSrc → Option (List AtomNodes × ByteSrc)
  | 0, _, _ => none
  | _ + 1, [], s => some ([], s)
  | fuel + 1, h :: t, s =>
    match AtomNodes.new fuel h s with
    | none => none
    | some (.ok n, s') => (classifyList fuel t s').map (fun r => (n :: r.1, r.2))
    | some (.error _, s') => classifyList fuel t s'
end

/-- `MIN_FILE_READ` (src/parse_state.rs line 48). -/
def MIN_FILE_READ : Nat := 8

/-- `Parser` (src/parse_state.rs lines 146-149), with the opened file
represented by its contents. -/
structure Parser where
  data : List Nat
deriving Repr, DecidableEq

/-- `Parser::new` (src/parse_state.rs lines 152-160): accept the file only if
its length is strictly greater than `MIN_FILE_READ`. -/
def Parser.new (data : List Nat) : Except ParseError Parser :=
  if data.length > MIN_FILE_READ then .ok ⟨data⟩
  else .error (.NotValidMediaFileSize "Bad File Size")

/-- Modelled from the spec: the conversion of the `Parser`'s `AtomLike` view
into an `AtomHeader` (`impl From<&mut Parser> for AtomHeader`, src/parse_state.rs
lines 194-199, delegates to a `From<&dyn AtomLike>` conversion that is not in
the source files).  Per the spec the root pseudo-atom is the wrapper with
`type = "root"`, `location = 0`, `header_size = 0`, `size = total file length`,
i.e. the conversion copies the four `AtomLike` fields of the `Parser`
(src/parse_state.rs lines 177-193). -/
def Parser.rootHeader (p : Parser) : AtomHeader :=
  ⟨p.data.length, rootType, 0, 0⟩

/-- `Parser::parse` (src/parse_state.rs lines 170-174): rewind to offset 0 and
classify the synthetic root header.  `ParseResults` is a plain wrapper around
the returned `Result`, so it is elided. -/
def Parser.parse (fuel : Nat) (p : Parser) : Option (Except ParseError AtomNodes × ByteSrc) :=
  AtomNodes.new fuel p.rootHeader ⟨p.data, 0⟩

/-- Reading a header at or past end-of-stream consumes nothing and yields the
all-zero header located at the current position. -/
theorem AtomHeader.new_eof (s : ByteSrc) (h : s.data.length ≤ s.pos) :
    AtomHeader.new s = (⟨0, [0, 0, 0, 0], s.pos, 0⟩, s) := by
  have hd : s.data.drop s.pos = [] := List.drop_eq_nil_of_le h
  simp [AtomHeader.new, ByteSrc.readBytes, hd, fromBE, List.replicate]

/-- Claim C8 (code bug evidence): a 4-byte source `[0,0,0,20]` yields fewer
bytes than the 8 a header requires, yet `AtomHeader::new` succeeds, returning
a header built from the zero-filled remainder of the buffer (type code
`[0,0,0,0]`, `header_size` 4) instead of an I/O-kind error. -/
theorem C8_zero_filled_header :
    AtomHeader.new ⟨[0, 0, 0, 20], 0⟩ =
      (⟨20, [0, 0, 0, 0], 0, 4⟩, ⟨[0, 0, 0, 20], 4⟩) := rfl

/-- Claim C6 (code bug evidence): for the type code `[255,255,255,255]`,
which is not valid UTF-8, `str::from_utf8(..).unwrap()` inside `atom_type()`
panics (modelled by `none`), so classification of such an atom panics instead
of yielding the "unknown" leaf. -/
theorem C6_panic :
    atomTypeStr [255, 255, 255, 255] = none ∧
    AtomNodes.new 9 ⟨16, [255, 255, 255, 255], 0, 8⟩
        ⟨[0, 0, 0, 16, 255, 255, 255, 255, 0, 0, 0, 0, 0, 0, 0, 0], 0⟩ = none :=
  ⟨rfl, rfl⟩

/-- Claim C7 (counterexample): a readable file of exactly 8 bytes — at least
one minimal header long, so the claim says construction must succeed — is
rejected with the invalid-source-size error, because `Parser::new` demands
`len > MIN_FILE_READ`, strictly. -/
theorem C7_counterexample :
    Parser.new [0, 0, 0, 8, 102, 114, 101, 101] =
      .error (.NotValidMediaFileSize "Bad File Size") := rfl

/-- Claim C7 (amended): parser construction fails with the invalid-source-size
error for every file of at most 8 bytes (no header decode is attempted: the
check precedes all reads), and succeeds for every readable file of at least
9 bytes. -/
theorem C7_amended (d : List Nat) :
    (d.length ≤ 8 → Parser.new d = .error (.NotValidMediaFileSize "Bad File Size"))
    ∧ (8 < d.length → Parser.new d = .ok ⟨d⟩) := by
  unfold Parser.new MIN_FILE_READ
  constructor
  · intro h
    rw [if_neg (by omega)]
  · intro h
    rw [if_pos (by omega)]

/-- Claim C7 witness: the amended theorem applied to a 4-byte file (the spec's
truncated-file scenario) and to a 9-byte file. -/
theorem C7_amended_witness :
    Parser.new [0, 0, 0, 0] = .error (.NotValidMediaFileSize "Bad File Size") ∧
    Parser.new [0, 0, 0, 9, 102, 114, 101, 101, 0] =
      .ok ⟨[0, 0, 0, 9, 102, 114, 101, 101, 0]⟩ :=
  ⟨(C7_amended [0, 0, 0, 0]).1 (by decide),
   (C7_amended [0, 0, 0, 9, 102, 114, 101, 101, 0]).2 (by decide)⟩

/-- Claim C1 (counterexample): a 9-byte file parses successfully, and the
returned root node carries type "root", location 0, header size 0 and the file
length as size — but it is an `UnknownAtom` leaf, not a container, and has no
children: `"root"` matches neither the container table nor the leaf table. -/
theorem C1_counterexample :
    Parser.parse 5 ⟨[0, 0, 0, 9, 102, 114, 101, 101, 0]⟩ =
      some (.ok (.Atom (.UnknownAtom ⟨9, rootType, 0, 0⟩)),
        ⟨[0, 0, 0, 9, 102, 114, 101, 101, 0], 0⟩) ∧
    AtomNodes.is_container (.Atom (.UnknownAtom ⟨9, rootType, 0, 0⟩)) = false :=
  ⟨rfl, rfl⟩

/-- Claim C1 (amended): for every file accepted by the parser, the top-level
parse succeeds and returns a root node with atom type "root", location 0,
header size 0 and size equal to the total file length — but that node is the
"unknown" leaf wrapping the synthetic root header, with no children; the
file's top-level atoms are never enumerated (no byte of the file is read). -/
theorem C1_amended (d : List Nat) (p : Parser) (fuel : Nat)
    (hp : Parser.new d = .ok p) :
    Parser.parse (fuel + 2) p =
      some (.ok (.Atom (.UnknownAtom ⟨d.length, rootType, 0, 0⟩)), ⟨d, 0⟩) := by
  unfold Parser.new at hp
  split at hp
  · injection hp with hp
    subst hp
    rfl
  · exact (Except.noConfusion hp)

/-- Claim C1 witness: the amended theorem applied to the spec's 20-byte
file-type-atom scenario file. -/
theorem C1_amended_witness :
    Parser.parse 7 ⟨[0, 0, 0, 20, 102, 116, 121, 112, 105, 115, 111, 109,
        0, 0, 2, 0, 105, 115, 111, 50]⟩ =
      some (.ok (.Atom (.UnknownAtom ⟨20, rootType, 0, 0⟩)),
        ⟨[0, 0, 0, 20, 102, 116, 121, 112, 105, 115, 111, 109,
          0, 0, 2, 0, 105, 115, 111, 50], 0⟩) :=
  C1_amended [0, 0, 0, 20, 102, 116, 121, 112, 105, 115, 111, 109,
      0, 0, 2, 0, 105, 115, 111, 50]
    ⟨[0, 0, 0, 20, 102, 116, 121, 112, 105, 115, 111, 109,
      0, 0, 2, 0, 105, 115, 111, 50]⟩ 5 rfl

/-- Claim C4 (counterexample): a `moov` header whose declared size (8) equals
its own header size decodes successfully but with ONE child, not zero: the
loop body of `parse_children` unconditionally reads a child header first, and
at end-of-file that read is zero-filled, producing a spurious size-0 unknown
child at the container's end. -/
theorem C4_counterexample :
    MoovAtom.new 5 ⟨8, moovType, 0, 8⟩ ⟨[0, 0, 0, 8, 109, 111, 111, 118], 0⟩ =
      some (.ok (.mk ⟨8, moovType, 0, 8⟩
          [.Atom (.UnknownAtom ⟨0, [0, 0, 0, 0], 8, 0⟩)]),
        ⟨[0, 0, 0, 8, 109, 111, 111, 118], 8⟩) ∧
    (MoovAtom.mk ⟨8, moovType, 0, 8⟩
        [.Atom (.UnknownAtom ⟨0, [0, 0, 0, 0], 8, 0⟩)]).children.length = 1 :=
  ⟨rfl, rfl⟩

/-- Claim C4 (amended): for every `moov` header with declared size equal to
its own header size (8) at any location `L`, with the source ending exactly at
the container's end (a file length representable in `u64`, as
`metadata.len()` returns), container decoding terminates and succeeds (it is
not an error), but it does attempt one child-header read at the container's
end: the zero-filled end-of-file read yields exactly one spurious size-0
"unknown" child rather than zero children. -/
theorem C4_amended (L : Nat) (d : List Nat) (fuel : Nat) (hd : d.length = L + 8)
    (h64 : L + 8 < 2 ^ 64) :
    MoovAtom.new (fuel + 5) ⟨8, moovType, L, 8⟩ ⟨d, 0⟩ =
      some (.ok (.mk ⟨8, moovType, L, 8⟩
          [.Atom (.UnknownAtom ⟨0, [0, 0, 0, 0], L + 8, 0⟩)]),
        ⟨d, L + 8⟩) := by
  have h1 : AtomHeader.new ⟨d, L + 8⟩ = (⟨0, [0, 0, 0, 0], L + 8, 0⟩, ⟨d, L + 8⟩) :=
    AtomHeader.new_eof ⟨d, L + 8⟩ (by simp [hd])
  have he : wadd64 (L + 8) 0 = L + 8 := by
    unfold wadd64
    omega
  rw [MoovAtom.new, AtomNodes.parseChildren, parseChildrenHeaders]
  simp only [ByteSrc.seekTo]
  rw [h1]
  simp only []
  rw [he]
  rw [if_pos (show L + 8 ≥ 8 by omega)]
  rfl

/-- Claim C4 witness: the amended theorem applied to the 8-byte file that is
exactly one empty `moov` container. -/
theorem C4_amended_witness :
    MoovAtom.new 5 ⟨8, moovType, 0, 8⟩ ⟨[0, 0, 0, 8, 109, 111, 111, 118], 0⟩ =
      some (.ok (.mk ⟨8, moovType, 0, 8⟩
          [.Atom (.UnknownAtom ⟨0, [0, 0, 0, 0], 0 + 8, 0⟩)]),
        ⟨[0, 0, 0, 8, 109, 111, 111, 118], 0 + 8⟩) :=
  C4_amended 0 [0, 0, 0, 8, 109, 111, 111, 118] 0 rfl (by norm_num)

/-- Claim C5: in the classification pass over a container's child headers, a
child whose classification returns an error is omitted from the children list
and the remaining siblings are still classified, in order, from the source
state the failed attempt left behind; a child whose classification succeeds is
kept, in order, ahead of its later siblings. -/
theorem C5_sibling_resilience (fuel : Nat) (h : AtomHeader) (t : List AtomHeader)
    (s : ByteSrc) :
    (∀ e s', AtomNodes.new fuel h s = some (.error e, s') →
        classifyList (fuel + 1) (h :: t) s = classifyList fuel t s')
    ∧ (∀ n s', AtomNodes.new fuel h s = some (.ok n, s') →
        classifyList (fuel + 1) (h :: t) s =
          (classifyList fuel t s').map (fun r => (n :: r.1, r.2))) := by
  constructor
  · intro e s' he
    rw [classifyList, he]
  · intro n s' hn
    rw [classifyList, hn]

/-- Claim C5 witness: inside a `moov` of declared size 32 backed by only 24
bytes of file, the `ftyp` child at offset 16 declaring size 100 fails its
classification (short atom read), and the enumeration proceeds to the
remaining sibling list. -/
theorem C5_witness :
    classifyList 4 [⟨100, ftypType, 16, 8⟩, ⟨8, freeType, 8, 8⟩]
        ⟨[0, 0, 0, 32, 109, 111, 111, 118, 0, 0, 0, 8, 102, 114, 101, 101,
          0, 0, 0, 100, 102, 116, 121, 112], 24⟩ =
      classifyList 3 [⟨8, freeType, 8, 8⟩]
        ⟨[0, 0, 0, 32, 109, 111, 111, 118, 0, 0, 0, 8, 102, 114, 101, 101,
          0, 0, 0, 100, 102, 116, 121, 112], 24⟩ :=
  (C5_sibling_resilience 3 ⟨100, ftypType, 16, 8⟩ [⟨8, freeType, 8, 8⟩]
      ⟨[0, 0, 0, 32, 109, 111, 111, 118, 0, 0, 0, 8, 102, 114, 101, 101,
        0, 0, 0, 100, 102, 116, 121, 112], 24⟩).1
    (.FailedToReadOutAtom ftypType 100 8)
    ⟨[0, 0, 0, 32, 109, 111, 111, 118, 0, 0, 0, 8, 102, 114, 101, 101,
      0, 0, 0, 100, 102, 116, 121, 112], 24⟩ rfl

/-- Claim C10: atoms typed "mvhd" or "prfl" are not in the container table
(only "moov" is) nor in the leaf dispatch table ("ftyp", "free", "wide",
"mdat"), so classification yields the "unknown" leaf retaining only the
header; the `MvhdAtom`/`PrflAtom` field extraction is unreachable through
parsing. -/
theorem C10_unknown_dispatch (h : AtomHeader) (s : ByteSrc) (fuel : Nat)
    (ht : h.atom_type = [109, 118, 104, 100] ∨ h.atom_type = [112, 114, 102, 108]) :
    AtomNodes.new (fuel + 2) h s = some (.ok (.Atom (.UnknownAtom h)), s) := by
  obtain ⟨sz, ty, loc, hsz⟩ := h
  rcases ht with ht | ht
  · have ht' : ty = [109, 118, 104, 100] := ht
    subst ht'
    rfl
  · have ht' : ty = [112, 114, 102, 108] := ht
    subst ht'
    rfl

/-- Claim C10 witness: a concrete "mvhd" atom classifies as unknown. -/
theorem C10_witness :
    AtomNodes.new 7 ⟨108, [109, 118, 104, 100], 16, 8⟩ ⟨[0, 0, 0, 108], 24⟩ =
      some (.ok (.Atom (.UnknownAtom ⟨108, [109, 118, 104, 100], 16, 8⟩)),
        ⟨[0, 0, 0, 108], 24⟩) :=
  C10_unknown_dispatch ⟨108, [109, 118, 104, 100], 16, 8⟩ ⟨[0, 0, 0, 108], 24⟩ 5
    (Or.inl rfl)

/-- Claim C9: `read_atom` seeks to `atom_location` and reads `atom_size`
bytes; when the source yields fewer bytes than declared it fails with the
short-atom-read error carrying the atom's type code, the declared size, and
the number of bytes actually read; when it yields exactly the declared size,
the bytes are returned successfully.  (The type code must be valid UTF-8 for
the error to be built; every leaf decoder reaching `read_atom` was dispatched
on a valid type string, so this always holds there.) -/
theorem C9_read_atom (h : AtomHeader) (s : ByteSrc)
    (hv : utf8Valid h.atom_type = true) :
    (((s.data.drop h.atom_location).take h.atom_size).length < h.atom_size →
      h.read_atom s = some (.error (.FailedToReadOutAtom h.atom_type h.atom_size
          ((s.data.drop h.atom_location).take h.atom_size).length),
        ⟨s.data, h.atom_location +
          ((s.data.drop h.atom_location).take h.atom_size).length⟩))
    ∧ (((s.data.drop h.atom_location).take h.atom_size).length = h.atom_size →
      h.read_atom s = some (.ok ((s.data.drop h.atom_location).take h.atom_size),
        ⟨s.data, h.atom_location + h.atom_size⟩)) := by
  constructor
  · intro hlt
    simp only [AtomHeader.read_atom, ByteSrc.seekTo, ByteSrc.readBytes]
    rw [if_neg (by omega)]
    simp [atomTypeStr, hv]
  · intro heq
    simp only [AtomHeader.read_atom, ByteSrc.seekTo, ByteSrc.readBytes]
    rw [if_pos heq, heq]

/-- Claim C9 witness: a 6-byte source against a declared size of 10 gives the
short-read error with the actual count 6; an exactly-sized `free` atom reads
out whole. -/
theorem C9_witness :
    AtomHeader.read_atom ⟨10, ftypType, 0, 8⟩ ⟨[0, 0, 0, 10, 102, 116], 0⟩ =
      some (.error (.FailedToReadOutAtom ftypType 10 6), ⟨[0, 0, 0, 10, 102, 116], 6⟩) ∧
    AtomHeader.read_atom ⟨8, freeType, 0, 8⟩ ⟨[0, 0, 0, 8, 102, 114, 101, 101], 0⟩ =
      some (.ok [0, 0, 0, 8, 102, 114, 101, 101], ⟨[0, 0, 0, 8, 102, 114, 101, 101], 8⟩) := by
  constructor
  · have := (C9_read_atom ⟨10, ftypType, 0, 8⟩ ⟨[0, 0, 0, 10, 102, 116], 0⟩
      (by decide)).1 (by decide)
    simpa using this
  · have := (C9_read_atom ⟨8, freeType, 0, 8⟩ ⟨[0, 0, 0, 8, 102, 114, 101, 101], 0⟩
      (by decide)).2 (by decide)
    simpa using this


/-- Claim C3: decoding a header from a source positioned at offset `L` whose
next 8 bytes are a big-endian 32-bit size (with value ≠ 1) followed by a
4-byte type code yields `header_size = 8`, exactly that size and type, and
`location = L`; when the 32-bit size field is exactly 1 and 8 further bytes
follow the type code, it yields `header_size = 16` and the 64-bit size read
from those bytes, still with `location = L`. -/
theorem C3_header_roundtrip :
    (∀ (s : ByteSrc) (a b c d t0 t1 t2 t3 : Nat),
        (s.data.drop s.pos).take 8 = [a, b, c, d, t0, t1, t2, t3] →
        fromBE [a, b, c, d] ≠ 1 →
        AtomHeader.new s =
          (⟨fromBE [a, b, c, d], [t0, t1, t2, t3], s.pos, 8⟩, ⟨s.data, s.pos + 8⟩))
    ∧ (∀ (s : ByteSrc) (t0 t1 t2 t3 u0 u1 u2 u3 u4 u5 u6 u7 : Nat),
        (s.data.drop s.pos).take 8 = [0, 0, 0, 1, t0, t1, t2, t3] →
        (s.data.drop (s.pos + 8)).take 8 = [u0, u1, u2, u3, u4, u5, u6, u7] →
        AtomHeader.new s =
          (⟨fromBE [u0, u1, u2, u3, u4, u5, u6, u7], [t0, t1, t2, t3], s.pos, 16⟩,
            ⟨s.data, s.pos + 16⟩)) := by
  constructor
  · intro s a b c d t0 t1 t2 t3 hb hne
    simp only [AtomHeader.new, ByteSrc.readBytes, hb, List.length_cons, List.length_nil]
    norm_num
    exact fun h => absurd h hne
  · intro s t0 t1 t2 t3 u0 u1 u2 u3 u4 u5 u6 u7 hb1 hb2
    simp only [AtomHeader.new, ByteSrc.readBytes, hb1, List.length_cons, List.length_nil]
    norm_num
    simp only [hb2]
    have hlen : 8 ⊓ (s.data.length - (s.pos + 8)) = 8 := by
      have h := congrArg List.length hb2
      simpa using h
    rw [if_pos (show fromBE [0, 0, 0, 1] = 1 from rfl)]
    rw [hlen]
    norm_num
    omega

/-- Claim C3 witness: both header layouts decoded from concrete sources, the
ordinary one at offset 0 and the extended-size one at offset 8. -/
theorem C3_witness :
    AtomHeader.new ⟨[0, 0, 0, 20, 102, 116, 121, 112], 0⟩ =
      (⟨20, [102, 116, 121, 112], 0, 8⟩, ⟨[0, 0, 0, 20, 102, 116, 121, 112], 8⟩) ∧
    AtomHeader.new ⟨[0, 0, 0, 8, 102, 114, 101, 101,
        0, 0, 0, 1, 119, 105, 100, 101, 0, 0, 0, 0, 0, 0, 0, 16], 8⟩ =
      (⟨16, [119, 105, 100, 101], 8, 16⟩,
        ⟨[0, 0, 0, 8, 102, 114, 101, 101,
          0, 0, 0, 1, 119, 105, 100, 101, 0, 0, 0, 0, 0, 0, 0, 16], 24⟩) := by
  constructor
  · have := C3_header_roundtrip.1 ⟨[0, 0, 0, 20, 102, 116, 121, 112], 0⟩
      0 0 0 20 102 116 121 112 rfl (by decide)
    simpa using this
  · have := C3_header_roundtrip.2
      ⟨[0, 0, 0, 8, 102, 114, 101, 101,
        0, 0, 0, 1, 119, 105, 100, 101, 0, 0, 0, 0, 0, 0, 0, 16], 8⟩
      119 105 100 101 0 0 0 0 0 0 0 16 rfl rfl
    simpa using this
